import Mathlib

/-!
Verification of the batch orchestration and recovery controller
(`run_batches_simple.py`) and the result merger (`merge_batch_results.py`).

The Python sources are shallowly embedded: pure computations become Lean
functions, the mutable loop state of `main` becomes explicit state passing,
file reads and subprocess events become explicit input data, and every
fallible operation is made total by enumerating its failure modes as
constructors.  Machine integers in the source are plain Python ints
(arbitrary precision), so `Nat`/`Int` model them exactly.
-/

namespace BatchRunner

/-- The closed status enumeration used by `run_batch` and `main` in
`run_batches_simple.py` (the status strings "success", "failed", "timeout",
"rate_limited", "service_overloaded", "error"). -/
inductive Status
  | success
  | failed
  | timeout
  | rate_limited
  | service_overloaded
  | error
deriving DecidableEq, Repr

/-- A BatchOutcome: the dictionary returned by `run_batch`
(`{"batch_num": .., "status": .., ...}`).  The float-valued `elapsed` field
and the string `error_type`/`error` fields are carried opaquely by the
source and never branched on by the orchestration logic, so they are
omitted here; `error_count` is kept because the classifier computes it. -/
structure BatchOutcome where
  batch_num : Nat
  status : Status
  error_count : Option Nat
deriving DecidableEq, Repr

/-! ### String matching used by the classifier

Python's `needle in haystack` is substring containment and `str.lower` is
per-character lowercasing; both are reproduced here over `List Char`. -/

/-- `charsStartWith needle hay` is true when `hay` starts with `needle`. -/
def charsStartWith : List Char → List Char → Bool
  | [], _ => true
  | _ :: _, [] => false
  | a :: as, b :: bs => a == b && charsStartWith as bs

/-- `charsContain needle hay` is true when `needle` occurs as a contiguous
subsequence of `hay` (Python's `needle in hay` on strings). -/
def charsContain (needle : List Char) : List Char → Bool
  | [] => charsStartWith needle []
  | b :: t => charsStartWith needle (b :: t) || charsContain needle t

/-- Python `needle in hay` for strings. -/
def strContains (needle hay : String) : Bool :=
  charsContain needle.toList hay.toList

/-- Python `s.lower()`: per-character lowercasing.  (Same mapping as
`String.toLower`, but written over the character list so that concrete
evaluations reduce.) -/
def strLower (s : String) : String :=
  ⟨s.data.map Char.toLower⟩

/-- The per-record rate-limit test of `check_api_errors` (line 130):
`'429' in error or 'Rate limit' in error.lower() or 'Too Many Requests' in error`.
(The middle disjunct compares a string containing an upper-case letter
against a lowercased string, exactly as the source does.) -/
def isRateLimitError (e : String) : Bool :=
  strContains "429" e || strContains "Rate limit" (strLower e) ||
    strContains "Too Many Requests" e

/-- The per-record overload test of `check_api_errors` (line 132):
`'503' in error or 'Service Unavailable' in error or 'overloaded' in error.lower()`. -/
def isServiceUnavailableError (e : String) : Bool :=
  strContains "503" e || strContains "Service Unavailable" e ||
    strContains "overloaded" (strLower e)

/-- What reading the result artifact at `output_json` can yield.
`ok errs` is a successfully parsed artifact, reduced to the list of
per-record strings `str(result.get('response', {}).get('error', ''))`
(records without an error contribute `""`); `missing` is
`not os.path.exists(output_json)`; `unreadable` and `malformed` are the
I/O and JSON failure modes swallowed by the `except` clause. -/
inductive ArtifactRead
  | missing
  | unreadable
  | malformed
  | ok (errs : List String)
deriving DecidableEq

/-- The counting loop of `check_api_errors` (lines 125-133): one pass over
the records; a record matching the rate-limit test increments the first
counter, otherwise (`elif`) a record matching the overload test increments
the second. -/
def countApiErrors (errs : List String) : Nat × Nat :=
  errs.foldl
    (fun (c : Nat × Nat) e =>
      if isRateLimitError e then (c.1 + 1, c.2)
      else if isServiceUnavailableError e then (c.1, c.2 + 1)
      else c)
    (0, 0)

/-- `check_api_errors` (lines 115-142).  Returns
`(error_type, rate_limit_count, service_unavailable_count)`.  A missing
file returns `(None, 0, 0)` before any read; any exception while reading
or parsing is caught and also yields `(None, 0, 0)`. -/
def check_api_errors : ArtifactRead → Option String × Nat × Nat
  | .missing => (none, 0, 0)
  | .unreadable => (none, 0, 0)
  | .malformed => (none, 0, 0)
  | .ok errs =>
      let c := countApiErrors errs
      if 0 < c.1 then (some "429_rate_limit", c.1, 0)
      else if 0 < c.2 then (some "503_overloaded", 0, c.2)
      else (none, 0, 0)

/-- What the supervised subprocess run can do, as observed by `run_batch`
(lines 172-244): exit with a code, exceed the timeout (process group then
killed), or raise an unexpected exception inside the supervising code. -/
inductive ProcEvent
  | timedOut
  | exited (code : Int)
  | raised
deriving DecidableEq

/-- `run_batch` (lines 145-244), as a function of the subprocess event and
of what reading the output artifact yields.  On timeout it reports
`timeout` without consulting the artifact; on a normal exit it first runs
`check_api_errors`, reporting `rate_limited`/`service_overloaded` when the
classifier flags the artifact, and otherwise reports `success` iff the
exit code is 0 and `failed` otherwise; any exception is caught and
reported as `error`. -/
def run_batch (batch_num : Nat) (ev : ProcEvent) (art : ArtifactRead) :
    BatchOutcome :=
  match ev with
  | .timedOut => ⟨batch_num, .timeout, none⟩
  | .raised => ⟨batch_num, .error, none⟩
  | .exited code =>
      let r := check_api_errors art
      if r.1 = some "429_rate_limit" then ⟨batch_num, .rate_limited, some r.2.1⟩
      else if r.1 = some "503_overloaded" then
        ⟨batch_num, .service_overloaded, some r.2.2⟩
      else if code = 0 then ⟨batch_num, .success, none⟩
      else ⟨batch_num, .failed, none⟩

/-! ### Fallback selection and the escalation controller -/

/-- `FALLBACK_MODELS` (lines 34-38), reduced to the model identifiers; the
human-readable descriptions are only printed. -/
def FALLBACK_MODELS : List String :=
  ["google:gemini-2.5-flash-lite", "google:gemini-3-pro-preview",
   "google:gemini-2.5-pro"]

/-- `MAX_CONSECUTIVE_FAILURES` (line 41): the circuit-breaker threshold. -/
def MAX_CONSECUTIVE_FAILURES : Nat := 2

/-- The adoption test of `_try_fallback_models` (line 283):
`retry_result["status"] in ["success", "failed"]`.  The same membership
test appears in the cooldown condition of `main` (line 498). -/
def isSuccessOrFailed : Status → Bool
  | .success => true
  | .failed => true
  | _ => false

/-- The candidate loop of `_try_fallback_models` (lines 266-298),
parameterized by the roster being iterated.  `retry` is the environment:
it gives, for each candidate model identifier, the `BatchOutcome` that
re-materializing the config and re-running the batch under that model
produces (one retry per candidate within one escalation).  A candidate
equal to the current model is skipped (`continue`); the first remaining
candidate whose retry status is `success` or `failed` is adopted: its
outcome overwrites the last element of `results` (`results[-1] = retry_result`)
and its identifier is returned.  If the loop exhausts the roster the
function returns `None` and leaves `results` untouched.  (The
`current_idx` computation at lines 259-263 is dead code: its value is
never used.)  Callers always pass a non-empty `results`, so the
`results[-1]` assignment is modelled by `dropLast ++ [·]`. -/
def tryFallbackAux (retry : String → BatchOutcome) (current : Option String)
    (results : List BatchOutcome) :
    List String → Option String × List BatchOutcome
  | [] => (none, results)
  | m :: rest =>
      if current == some m then tryFallbackAux retry current results rest
      else if isSuccessOrFailed (retry m).status then
        (some m, results.dropLast ++ [retry m])
      else tryFallbackAux retry current results rest

/-- `_try_fallback_models` (lines 247-298): the loop over the fixed
`FALLBACK_MODELS` roster. -/
def try_fallback_models (retry : String → BatchOutcome)
    (current : Option String) (results : List BatchOutcome) :
    Option String × List BatchOutcome :=
  tryFallbackAux retry current results FALLBACK_MODELS

/-- The mutable loop state of `main` (lines 375-377), plus the observable
effects of `_save_partial_and_exit` (lines 301-318): once `halted` is set
the process has called `sys.exit(1)` after dumping `results` to the
partial-summary file and printing a `--start <batch_num>` resume hint. -/
structure RunSt where
  counter : Nat
  model : Option String
  results : List BatchOutcome
  halted : Bool
  persisted : Option (List BatchOutcome)
  exitCode : Option Nat
  resumeStart : Option Nat
deriving DecidableEq, Repr

/-- One controller step's full observable output: the new state, whether
`_try_fallback_models` was invoked, and whether the cooldown delay at
lines 496-500 runs before the next batch. -/
structure StepOut where
  st : RunSt
  attemptedFallback : Bool
  delayed : Bool
deriving DecidableEq, Repr

/-- The shared body of the `timeout` and `service_overloaded` branches of
`main` (lines 417-443 and 460-480; the two branches are identical up to
log text).  The failure counter is incremented first.  With
`--no-fallback` the run halts once the counter reaches the threshold.
Otherwise `_try_fallback_models` is invoked; on adoption the counter is
reset, the adopted identifier becomes the current model and the replaced
results list is kept; on exhaustion the threshold check applies.  The
cooldown delay is never applied after these branches: line 498 checks the
*original* outcome's status (the local `result` dict, which the
`results[-1]` replacement does not rebind), and that status is `timeout`
or `service_overloaded`. -/
def escInfra (nofb : Bool) (retry : String → BatchOutcome) (s : RunSt)
    (o : BatchOutcome) (results1 : List BatchOutcome) : StepOut :=
  let c := s.counter + 1
  if nofb then
    if MAX_CONSECUTIVE_FAILURES ≤ c then
      { st := { counter := c, model := s.model, results := results1,
                halted := true, persisted := some results1,
                exitCode := some 1, resumeStart := some o.batch_num },
        attemptedFallback := false, delayed := false }
    else
      { st := { counter := c, model := s.model, results := results1,
                halted := false, persisted := none, exitCode := none,
                resumeStart := none },
        attemptedFallback := false, delayed := false }
  else
    match try_fallback_models retry s.model results1 with
    | (some m, results2) =>
        { st := { counter := 0, model := some m, results := results2,
                  halted := false, persisted := none, exitCode := none,
                  resumeStart := none },
          attemptedFallback := true, delayed := false }
    | (none, results2) =>
        if MAX_CONSECUTIVE_FAILURES ≤ c then
          { st := { counter := c, model := s.model, results := results2,
                    halted := true, persisted := some results2,
                    exitCode := some 1, resumeStart := some o.batch_num },
            attemptedFallback := true, delayed := false }
        else
          { st := { counter := c, model := s.model, results := results2,
                    halted := false, persisted := none, exitCode := none,
                    resumeStart := none },
            attemptedFallback := true, delayed := false }

/-- One iteration of the per-batch dispatch in `main` (lines 405-500):
append the new outcome to `results` (line 406), then branch on its status.
`success` resets the counter; `failed` leaves it untouched;
`timeout`/`service_overloaded` go through `escInfra`; `rate_limited`
persists and halts unconditionally; `error` increments the counter and
halts at the threshold with no fallback attempt.  `delayed` reflects the
cooldown condition `i < end_idx - 1 and result["status"] in
["success", "failed"]` (line 498), where `isLast` stands for
`¬(i < end_idx - 1)`. -/
def escStep (nofb : Bool) (retry : String → BatchOutcome) (isLast : Bool)
    (s : RunSt) (o : BatchOutcome) : StepOut :=
  let results1 := s.results ++ [o]
  match o.status with
  | .success =>
      { st := { counter := 0, model := s.model, results := results1,
                halted := false, persisted := none, exitCode := none,
                resumeStart := none },
        attemptedFallback := false, delayed := !isLast }
  | .failed =>
      { st := { counter := s.counter, model := s.model, results := results1,
                halted := false, persisted := none, exitCode := none,
                resumeStart := none },
        attemptedFallback := false, delayed := !isLast }
  | .timeout => escInfra nofb retry s o results1
  | .service_overloaded => escInfra nofb retry s o results1
  | .rate_limited =>
      { st := { counter := s.counter, model := s.model, results := results1,
                halted := true, persisted := some results1,
                exitCode := some 1, resumeStart := some o.batch_num },
        attemptedFallback := false, delayed := false }
  | .error =>
      let c := s.counter + 1
      if MAX_CONSECUTIVE_FAILURES ≤ c then
        { st := { counter := c, model := s.model, results := results1,
                  halted := true, persisted := some results1,
                  exitCode := some 1, resumeStart := some o.batch_num },
          attemptedFallback := false, delayed := false }
      else
        { st := { counter := c, model := s.model, results := results1,
                  halted := false, persisted := none, exitCode := none,
                  resumeStart := none },
          attemptedFallback := false, delayed := false }

/-- The batch loop of `main` (lines 392-500) over a given sequence of
incoming outcomes (the outcome each remaining batch would produce).  Once
a step has halted — `sys.exit(1)` inside `_save_partial_and_exit` — no
further batch is processed. -/
def runLoop (nofb : Bool) (retry : String → BatchOutcome) (s : RunSt) :
    List BatchOutcome → RunSt
  | [] => s
  | o :: rest =>
      if s.halted then s
      else runLoop nofb retry (escStep nofb retry rest.isEmpty s o).st rest

/-! ### Batch splitting and main's input handling -/

/-- `split_into_batches` (lines 51-56):
`for i in range(0, len(tests), batch_size): batches.append(tests[i:i+batch_size])`.
The Python step argument can be any int: step `0` raises `ValueError`
(modelled as `none`); a negative step makes `range(0, len(tests), step)`
empty, so the function silently returns no batches; a positive step `b`
yields the indices `0, b, 2b, ...` below `len(tests)` — exactly
`ceil(len(tests) / b)` of them — and the slice `tests[i:i+b]` is
`(tests.drop i).take b`. -/
def split_into_batches (tests : List α) (batch_size : Int) :
    Option (List (List α)) :=
  if batch_size = 0 then none
  else if batch_size < 0 then some []
  else
    some ((List.range ((tests.length + batch_size.toNat - 1) / batch_size.toNat)).map
      (fun i => (tests.drop (i * batch_size.toNat)).take batch_size.toNat))

/-- Where `main` gets its tests from (lines 339-369): an external file via
`--tests`, or the `tests` key of the config file. -/
inductive TestsSource (α : Type)
  | external (tests : List α)
  | inlineTests (tests : List α)
deriving DecidableEq

/-- How the load-and-split prologue of `main` can end. -/
inductive SetupResult (α : Type)
  | ok (batches : List (List α))
  | usageExit (code : Nat)
  | exception
deriving DecidableEq

/-- The load-and-split prologue of `main` (lines 339-369).  With `--tests`
(external) the loaded list is split immediately — there is no emptiness
check on that path.  In config (inline) mode an empty test list exits
with code 1 (lines 362-364) before splitting.  On both paths
`split_into_batches` is called outside any `try`, so a `ValueError` from
batch size 0 propagates as an unhandled exception. -/
def mainSetup : TestsSource α → Int → SetupResult α
  | .external tests, b =>
      match split_into_batches tests b with
      | none => .exception
      | some bs => .ok bs
  | .inlineTests tests, b =>
      if tests.isEmpty then .usageExit 1
      else
        match split_into_batches tests b with
        | none => .exception
        | some bs => .ok bs

/-- A fresh controller state: counter 0, no model override, no results,
not halted (the state of `main` entering its first iteration,
lines 375-377). -/
def freshState : RunSt := ⟨0, none, [], false, none, none, none⟩

/-- A timeout outcome for batch 1, as `run_batch` reports it (line 205). -/
def timeoutOutcome : BatchOutcome := ⟨1, .timeout, none⟩

end BatchRunner

namespace MergeBatches

/-- The promptfoo `stats.tokenUsage` dictionary as the merger uses it
(`merge_batch_results.py`, lines 62-66): each of the four keys may be
absent in an artifact. -/
structure TokenUsage where
  prompt : Option Nat
  completion : Option Nat
  cached : Option Nat
  total : Option Nat
deriving DecidableEq, Repr

/-- The `results.stats` block of an artifact. -/
structure ArtifactStats where
  successes : Nat
  failures : Nat
  errors : Nat
  tokenUsage : TokenUsage
deriving DecidableEq, Repr

/-- One batch ResultArtifact, reduced to the fields `merge_results` reads
and writes for its record sequence and stats: `results.results` (the
per-test records, of an arbitrary record type `R`) and `results.stats`.
The artifact's `prompts`, `metadata.exportedAt` and `evalId` fields, and
the per-prompt metrics recomputation of lines 73-113, are independent of
these outputs (the metrics recomputation only rewrites
`results.prompts[..].metrics`, and involves float-valued scores), so they
are not modelled. -/
structure Artifact (R : Type) where
  results : List R
  stats : ArtifactStats
deriving DecidableEq, Repr

/-- The per-key token-usage accumulation of lines 62-66:
`if key in batch: merged[key] = merged.get(key, 0) + batch[key]` — a key
absent from the incoming batch leaves the accumulator's entry alone. -/
def addTU (a b : TokenUsage) : TokenUsage :=
  { prompt := match b.prompt with
      | some v => some (a.prompt.getD 0 + v)
      | none => a.prompt
    completion := match b.completion with
      | some v => some (a.completion.getD 0 + v)
      | none => a.completion
    cached := match b.cached with
      | some v => some (a.cached.getD 0 + v)
      | none => a.cached
    total := match b.total with
      | some v => some (a.total.getD 0 + v)
      | none => a.total }

/-- Folding one additional artifact into the accumulated merge (the loop
body, lines 48-66, combined with the final stats overwrite of lines
69-71): records are appended in order and the three stats counters and
the token-usage sub-counters are added.  The source accumulates the
counters in local `total_*` variables and writes them back after the
loop; since nothing reads the intermediate stats, that is the same as
adding per step. -/
def mergeStep (acc b : Artifact R) : Artifact R :=
  { results := acc.results ++ b.results
    stats := { successes := acc.stats.successes + b.stats.successes
               failures := acc.stats.failures + b.stats.failures
               errors := acc.stats.errors + b.stats.errors
               tokenUsage := addTU acc.stats.tokenUsage b.stats.tokenUsage } }

/-- `merge_results` (lines 26-71): an empty file list returns `False`
(modelled `none`); otherwise the first artifact is the base and each
subsequent artifact is folded in. -/
def merge_results : List (Artifact R) → Option (Artifact R)
  | [] => none
  | base :: rest => some (rest.foldl mergeStep base)

/-- The two-batch scenario artifact with stats `{successes: 2, failures: 0,
errors: 0}` and two records. -/
def scenarioBatch1 : Artifact Nat :=
  ⟨[0, 1], ⟨2, 0, 0, ⟨none, none, none, none⟩⟩⟩

/-- The two-batch scenario artifact with stats `{successes: 1, failures: 1,
errors: 0}` and two records. -/
def scenarioBatch2 : Artifact Nat :=
  ⟨[2, 3], ⟨1, 1, 0, ⟨none, none, none, none⟩⟩⟩

end MergeBatches

/-! ## Theorems -/

namespace BatchRunner

theorem runLoop_halted (nofb : Bool) (retry : String → BatchOutcome)
    (s : RunSt) (l : List BatchOutcome) (h : s.halted = true) :
    runLoop nofb retry s l = s := by
  cases l with
  | nil => rfl
  | cons o rest => simp [runLoop, h]

/-- C1: under the escalation controller's per-outcome transition (with
auto-fallback disabled, so that the counter is a function of the incoming
BatchOutcome sequence alone), each `timeout`, `error` and
`service_overloaded` outcome increments the consecutive-infrastructure-
failure counter — in particular it is non-decreasing under them — every
`success` outcome resets it to zero, and every `failed` (accuracy) outcome
leaves it unchanged. -/
theorem c1_counter_transitions (retry : String → BatchOutcome)
    (isLast : Bool) (s : RunSt) (bn : Nat) (ec : Option Nat) :
    (escStep true retry isLast s ⟨bn, .timeout, ec⟩).st.counter = s.counter + 1 ∧
    (escStep true retry isLast s ⟨bn, .error, ec⟩).st.counter = s.counter + 1 ∧
    (escStep true retry isLast s ⟨bn, .service_overloaded, ec⟩).st.counter
      = s.counter + 1 ∧
    (escStep true retry isLast s ⟨bn, .success, ec⟩).st.counter = 0 ∧
    (escStep true retry isLast s ⟨bn, .failed, ec⟩).st.counter = s.counter := by
  refine ⟨?_, ?_, ?_, rfl, rfl⟩ <;>
    · simp only [escStep, escInfra, if_true]
      split <;> rfl

/-- C2: a `rate_limited` outcome halts the orchestrator unconditionally —
for every counter value (the state `s` is arbitrary, including
`s.counter = 0`) and whether or not fallback is enabled, the step sets the
halted flag, persists the accumulated BatchOutcome list (ending in the
rate-limited outcome) to the partial-summary file, exits with code 1 and a
`--start <batch_num>` resume hint, attempts no fallback, and the loop
processes no further batch afterwards. -/
theorem c2_rate_limited_halts (nofb : Bool) (retry : String → BatchOutcome)
    (isLast : Bool) (s : RunSt) (bn : Nat) (ec : Option Nat)
    (rest : List BatchOutcome) :
    (escStep nofb retry isLast s ⟨bn, .rate_limited, ec⟩).st.halted = true ∧
    (escStep nofb retry isLast s ⟨bn, .rate_limited, ec⟩).st.exitCode = some 1 ∧
    (escStep nofb retry isLast s ⟨bn, .rate_limited, ec⟩).st.persisted
      = some (s.results ++ [⟨bn, .rate_limited, ec⟩]) ∧
    (escStep nofb retry isLast s ⟨bn, .rate_limited, ec⟩).st.resumeStart
      = some bn ∧
    (escStep nofb retry isLast s ⟨bn, .rate_limited, ec⟩).attemptedFallback
      = false ∧
    runLoop nofb retry (escStep nofb retry isLast s ⟨bn, .rate_limited, ec⟩).st
        rest
      = (escStep nofb retry isLast s ⟨bn, .rate_limited, ec⟩).st :=
  ⟨rfl, rfl, rfl, rfl, rfl, runLoop_halted _ _ _ _ rfl⟩

/-- C10: the result classifier is total over every way reading the artifact
can go: a missing file, an unreadable file, and malformed JSON all yield
the classification `(none, 0, 0)` — so an absent or unreadable artifact
never produces a `rate_limited` or `service_overloaded` classification by
itself. -/
theorem c10_classifier_total :
    check_api_errors .missing = (none, 0, 0) ∧
    check_api_errors .unreadable = (none, 0, 0) ∧
    check_api_errors .malformed = (none, 0, 0) :=
  ⟨rfl, rfl, rfl⟩

/-- C4 counterexample: when the external tool exits without having written
the result artifact, the reported status is decided by the exit code alone
— exit code 1 with a missing artifact reports `failed` (not `error`), and
exit code 0 with a missing artifact even reports `success` — refuting the
claim that silent artifact absence is always reported as `error` and never
as a success. -/
theorem c4_counterexample :
    (run_batch 1 (.exited 1) .missing).status = .failed ∧
    (run_batch 1 (.exited 0) .missing).status = .success ∧
    ¬(run_batch 1 (.exited 1) .missing).status = .error := by
  decide

/-- C4 amended: when the tool exits without writing the artifact the
classifier finds nothing, so the outcome is `success` iff the exit code is
0 and `failed` otherwise; `error` is reported only when an exception is
raised while managing the process. -/
theorem c4_amended (bn : Nat) (code : Int) :
    run_batch bn (.exited code) .missing
      = (if code = 0 then ⟨bn, .success, none⟩ else ⟨bn, .failed, none⟩) ∧
    run_batch bn .raised .missing = ⟨bn, .error, none⟩ := by
  constructor
  · simp [run_batch, check_api_errors]
  · rfl

end BatchRunner

namespace BatchRunner

theorem escInfra_delayed (nofb : Bool) (retry : String → BatchOutcome)
    (s : RunSt) (o : BatchOutcome) (results1 : List BatchOutcome) :
    (escInfra nofb retry s o results1).delayed = false := by
  simp only [escInfra]
  split
  · split <;> rfl
  · split
    · rfl
    · split <;> rfl

/-- C7 counterexample: a single `timeout` outcome under `--no-fallback`
with the counter at 0 does not halt the run (the circuit-breaker threshold
of 2 is not reached), yet the cooldown delay before the next batch (there
is one: `isLast = false`) is skipped — refuting the claim that the delay is
applied after every non-halting outcome. -/
theorem c7_counterexample :
    (escStep true (fun _ => timeoutOutcome) false freshState
        timeoutOutcome).st.halted = false ∧
    (escStep true (fun _ => timeoutOutcome) false freshState
        timeoutOutcome).delayed = false := by
  decide

/-- C7 amended: the cooldown delay runs exactly when the just-processed
batch is not the last of the range and the supervisor's outcome status is
`success` or `failed` (line 498 tests the original outcome's status).  On
`timeout`, `service_overloaded`, `rate_limited` and `error` the delay is
skipped even when the run continues; it is never skipped on `failed`. -/
theorem c7_amended (nofb : Bool) (retry : String → BatchOutcome)
    (isLast : Bool) (s : RunSt) (o : BatchOutcome) :
    (escStep nofb retry isLast s o).delayed
      = (!isLast && isSuccessOrFailed o.status) := by
  cases h : o.status <;>
    simp only [escStep, h, isSuccessOrFailed, escInfra_delayed, Bool.and_true,
      Bool.and_false]
  all_goals
    first
      | rfl
      | (split <;> rfl)

/-- C6 counterexample: an empty external (`--tests`) test collection and a
negative batch size are both silently accepted by `main`'s load-and-split
prologue — each produces a normal run over zero batches (for the negative
batch size, dropping the supplied test) instead of a fatal input-validation
error. -/
theorem c6_counterexample :
    mainSetup (TestsSource.external ([] : List Nat)) 2 = .ok [] ∧
    mainSetup (TestsSource.external ([7] : List Nat)) (-1) = .ok [] := by
  decide

/-- C6 amended: only an empty *inline* test collection is reported as a
usage error (exit code 1, before anything is written); a batch size of 0
raises an unhandled `ValueError` out of `range`; a negative batch size is
silently accepted and yields zero batches whatever the tests are, and an
empty external test collection is likewise silently accepted. -/
theorem c6_amended (b c : Int) (tests : List Nat) (hb : b < 0) (hc : 0 < c) :
    mainSetup (TestsSource.inlineTests ([] : List Nat)) c = .usageExit 1 ∧
    mainSetup (TestsSource.external tests) 0 = .exception ∧
    mainSetup (TestsSource.external tests) b = .ok [] ∧
    mainSetup (TestsSource.external ([] : List Nat)) c = .ok [] := by
  have hb0 : ¬(b = 0) := by omega
  have hc0 : ¬(c = 0) := by omega
  have hcneg : ¬(c < 0) := by omega
  have h0 : (c.toNat - 1) / c.toNat = 0 := Nat.div_eq_of_lt (by omega)
  refine ⟨rfl, ?_, ?_, ?_⟩
  · simp [mainSetup, split_into_batches]
  · simp [mainSetup, split_into_batches, hb0, hb]
  · simp [mainSetup, split_into_batches, hc0, hcneg, h0]

/-- C6 amended, witnessed at batch sizes `-1`, `2` and the singleton
external test list `[7]`. -/
theorem c6_amended_witness :
    (-1 : Int) < 0 ∧ (0 : Int) < 2 ∧
    (mainSetup (TestsSource.inlineTests ([] : List Nat)) 2 = .usageExit 1 ∧
     mainSetup (TestsSource.external ([7] : List Nat)) 0 = .exception ∧
     mainSetup (TestsSource.external ([7] : List Nat)) (-1) = .ok [] ∧
     mainSetup (TestsSource.external ([] : List Nat)) 2 = .ok []) :=
  ⟨by decide, by decide, c6_amended (-1) 2 [7] (by decide) (by decide)⟩

end BatchRunner

namespace BatchRunner

theorem countApiErrors_foldl (errs : List String) (acc : Nat × Nat) :
    (errs.foldl
      (fun (c : Nat × Nat) e =>
        if isRateLimitError e then (c.1 + 1, c.2)
        else if isServiceUnavailableError e then (c.1, c.2 + 1)
        else c) acc).1
      = acc.1 + errs.countP isRateLimitError := by
  induction errs generalizing acc with
  | nil => simp
  | cons e rest ih =>
    simp only [List.foldl_cons, List.countP_cons]
    by_cases h1 : isRateLimitError e
    · rw [if_pos h1, ih]
      simp [h1]
      omega
    · rw [if_neg h1]
      by_cases h2 : isServiceUnavailableError e
      · rw [if_pos h2, ih]
        simp [h1]
      · rw [if_neg h2, ih]
        simp [h1]

theorem countApiErrors_fst (errs : List String) :
    (countApiErrors errs).1 = errs.countP isRateLimitError := by
  have h := countApiErrors_foldl errs (0, 0)
  simpa [countApiErrors] using h

/-- C3: whenever at least one per-test error string in a parsed artifact
matches the classifier's rate-limit test (a `429` substring, a
`Too Many Requests` substring, or the source's `Rate limit`-in-lowercase
test), `check_api_errors` classifies the artifact as `429_rate_limit`
with the number of rate-limit-matching records and a zero overload count —
regardless of any overload markers also present. -/
theorem c3_rate_limit_priority (errs : List String)
    (h : errs.any isRateLimitError = true) :
    check_api_errors (.ok errs)
      = (some "429_rate_limit", errs.countP isRateLimitError, 0) := by
  have h1 : (countApiErrors errs).1 = errs.countP isRateLimitError :=
    countApiErrors_fst errs
  have h2 : 0 < (countApiErrors errs).1 := by
    rw [h1, List.countP_pos_iff]
    rcases List.any_eq_true.mp h with ⟨e, he, hpe⟩
    exact ⟨e, he, hpe⟩
  simp only [check_api_errors]
  rw [if_pos h2, h1]

/-- C3, witnessed on the spec's scenario: one record erroring
`429 Too Many Requests` and one erroring `503 overloaded` classify as
`429_rate_limit` with count 1, not as `503_overloaded`. -/
theorem c3_priority_witness :
    (["429 Too Many Requests", "503 overloaded"].any isRateLimitError
      = true) ∧
    check_api_errors (.ok ["429 Too Many Requests", "503 overloaded"])
      = (some "429_rate_limit", 1, 0) :=
  ⟨by decide,
   (c3_rate_limit_priority ["429 Too Many Requests", "503 overloaded"]
     (by decide)).trans (by decide)⟩

end BatchRunner

namespace BatchRunner

theorem tryFallbackAux_fst (retry : String → BatchOutcome)
    (current : Option String) (results : List BatchOutcome)
    (roster : List String) :
    (tryFallbackAux retry current results roster).1
      = roster.find?
          (fun m => !(current == some m) && isSuccessOrFailed (retry m).status) := by
  induction roster with
  | nil => rfl
  | cons m rest ih =>
    by_cases hc : current == some m
    · simp [tryFallbackAux, hc, List.find?_cons, ih]
    · by_cases ha : isSuccessOrFailed (retry m).status
      · simp [tryFallbackAux, hc, ha, List.find?_cons]
      · simp [tryFallbackAux, hc, ha, List.find?_cons, ih]

theorem tryFallbackAux_snd (retry : String → BatchOutcome)
    (current : Option String) (results : List BatchOutcome)
    (roster : List String) :
    (tryFallbackAux retry current results roster).2
      = (match (tryFallbackAux retry current results roster).1 with
         | some m => results.dropLast ++ [retry m]
         | none => results) := by
  induction roster with
  | nil => rfl
  | cons m rest ih =>
    by_cases hc : current == some m
    · simpa [tryFallbackAux, hc] using ih
    · by_cases ha : isSuccessOrFailed (retry m).status
      · simp [tryFallbackAux, hc, ha]
      · simpa [tryFallbackAux, hc, ha] using ih

theorem escInfra_false_model (retry : String → BatchOutcome) (s : RunSt)
    (o : BatchOutcome) (r1 : List BatchOutcome) :
    (escInfra false retry s o r1).st.model
      = (match (try_fallback_models retry s.model r1).1 with
         | some m => some m
         | none => s.model) := by
  rcases h : try_fallback_models retry s.model r1 with ⟨om, res2⟩
  cases om with
  | some m => simp [escInfra, h]
  | none =>
      simp only [escInfra, h]
      simp only [Bool.false_eq_true, if_false]
      split <;> rfl

theorem escInfra_false_results (retry : String → BatchOutcome) (s : RunSt)
    (o : BatchOutcome) (r1 : List BatchOutcome) :
    (escInfra false retry s o r1).st.results
      = (try_fallback_models retry s.model r1).2 := by
  rcases h : try_fallback_models retry s.model r1 with ⟨om, res2⟩
  cases om with
  | some m => simp [escInfra, h]
  | none =>
      simp only [escInfra, h]
      simp only [Bool.false_eq_true, if_false]
      split <;> rfl

/-- C9: the fallback selector tries candidates in roster order with the
current model skipped — its returned identifier is the roster's first
candidate that differs from the current model and whose retry outcome is
`success` or `failed` (a `List.find?` over that eligibility test); on
adoption the adopted candidate's outcome replaces the last element of the
results list (the list keeps its other elements and its length — nothing
is appended), while without adoption the list is untouched; on a roster
whose every candidate is the current model or yields an infrastructure
status (`timeout`, `rate_limited`, `service_overloaded`, `error` — i.e.
not `success`/`failed`), the selector reports no candidate (`none`); and
in the controller's timeout branch the adopted identifier becomes the
current model for subsequent batches (the model is unchanged when no
candidate is adopted) and the selector's results list becomes the run
state's results list. -/
theorem c9_fallback_selector (retry : String → BatchOutcome)
    (current : Option String) (rs : List BatchOutcome) (r0 : BatchOutcome)
    (roster : List String) (isLast : Bool) (s : RunSt) (bn : Nat)
    (ec : Option Nat) :
    (tryFallbackAux retry current (rs ++ [r0]) roster).1
      = roster.find?
          (fun m => !(current == some m) && isSuccessOrFailed (retry m).status) ∧
    (tryFallbackAux retry current (rs ++ [r0]) roster).2
      = rs ++ [(match roster.find?
            (fun m => !(current == some m) && isSuccessOrFailed (retry m).status)
          with
          | some m => retry m
          | none => r0)] ∧
    (tryFallbackAux retry current (rs ++ [r0])
        (roster.filter
          (fun m => (current == some m) || !isSuccessOrFailed (retry m).status))).1
      = none ∧
    (escStep false retry isLast s ⟨bn, .timeout, ec⟩).st.model
      = (match (try_fallback_models retry s.model
            (s.results ++ [⟨bn, .timeout, ec⟩])).1 with
         | some m => some m
         | none => s.model) ∧
    (escStep false retry isLast s ⟨bn, .timeout, ec⟩).st.results
      = (try_fallback_models retry s.model
          (s.results ++ [⟨bn, .timeout, ec⟩])).2 := by
  refine ⟨tryFallbackAux_fst _ _ _ _, ?_, ?_, ?_, ?_⟩
  · rw [tryFallbackAux_snd, tryFallbackAux_fst]
    cases roster.find?
        (fun m => !(current == some m) && isSuccessOrFailed (retry m).status) with
    | none => simp
    | some m => simp
  · rw [tryFallbackAux_fst]
    rw [List.find?_eq_none]
    intro x hx
    rcases List.mem_filter.mp hx with ⟨_, hq⟩
    cases hcc : (current == some x) <;>
      cases hss : isSuccessOrFailed (retry x).status <;>
        simp_all
  · simp only [escStep]
    exact escInfra_false_model retry s ⟨bn, .timeout, ec⟩ _
  · simp only [escStep]
    exact escInfra_false_results retry s ⟨bn, .timeout, ec⟩ _

end BatchRunner

namespace BatchRunner

theorem splitChunks_join (b : Nat) (hb : 1 ≤ b) :
    ∀ (n : Nat) (tests : List α), tests.length ≤ n →
      ((List.range ((tests.length + b - 1) / b)).map
        (fun i => (tests.drop (i * b)).take b)).flatten = tests := by
  intro n
  induction n with
  | zero =>
    intro tests hlen
    have hnil : tests = [] := List.length_eq_zero.mp (Nat.le_zero.mp hlen)
    subst hnil
    have h0 : ((List.nil (α := α)).length + b - 1) / b = 0 :=
      Nat.div_eq_of_lt (by simp; omega)
    rw [h0]
    simp
  | succ n ih =>
    intro tests hlen
    match tests with
    | [] =>
      have h0 : ((List.nil (α := α)).length + b - 1) / b = 0 :=
        Nat.div_eq_of_lt (by simp; omega)
      rw [h0]
      simp
    | x :: xs =>
      have hk : ((x :: xs).length + b - 1) / b = xs.length / b + 1 := by
        have h1 : (x :: xs).length + b - 1 = xs.length + b := by
          simp only [List.length_cons]
          omega
        rw [h1, Nat.add_div_right _ (by omega : 0 < b)]
      rw [hk, List.range_succ_eq_map]
      rw [List.map_cons, List.flatten_cons, List.map_map]
      have hhead : (((x :: xs).drop (0 * b)).take b) = (x :: xs).take b := by
        simp
      rw [hhead]
      have htail :
          ((List.range (xs.length / b)).map
              ((fun i => ((x :: xs).drop (i * b)).take b) ∘ Nat.succ))
            = (List.range (xs.length / b)).map
                (fun i => (((x :: xs).drop b).drop (i * b)).take b) := by
        apply List.map_congr_left
        intro i _
        simp only [Function.comp_apply]
        rw [List.drop_drop]
        congr 2
        rw [Nat.succ_mul]
        omega
      rw [htail]
      have hTlen : ((x :: xs).drop b).length = xs.length + 1 - b := by
        simp
      have hTk : (((x :: xs).drop b).length + b - 1) / b = xs.length / b := by
        rw [hTlen]
        by_cases hb2 : b ≤ xs.length + 1
        · congr 1
          omega
        · have e1 : xs.length + 1 - b = 0 := by omega
          rw [e1]
          rw [Nat.div_eq_of_lt (by omega), Nat.div_eq_of_lt (by omega)]
      have hTle : ((x :: xs).drop b).length ≤ n := by
        rw [hTlen]
        simp at hlen
        omega
      have hrec := ih ((x :: xs).drop b) hTle
      rw [hTk] at hrec
      rw [hrec]
      exact List.take_append_drop b (x :: xs)

theorem splitChunks_sizes (b : Nat) (hb : 1 ≤ b) (tests : List α) :
    ∀ c ∈ ((List.range ((tests.length + b - 1) / b)).map
        (fun i => (tests.drop (i * b)).take b)).dropLast,
      c.length = b := by
  intro c hc
  cases hk : (tests.length + b - 1) / b with
  | zero =>
    rw [hk] at hc
    simp at hc
  | succ j =>
    rw [hk] at hc
    rw [List.range_succ, List.map_append] at hc
    simp only [List.map_cons, List.map_nil] at hc
    rw [List.dropLast_concat] at hc
    rcases List.mem_map.mp hc with ⟨i, hi, rfl⟩
    have hij : i < j := List.mem_range.mp hi
    have hn : 1 ≤ tests.length := by
      by_contra h0
      have hz : tests.length = 0 := by omega
      rw [hz, Nat.div_eq_of_lt (by omega)] at hk
      omega
    have hdiv := Nat.div_mul_le_self (tests.length + b - 1) b
    rw [hk] at hdiv
    have h1 : i * b + b ≤ j * b := by
      rw [← Nat.succ_mul]
      exact Nat.mul_le_mul_right b (by omega)
    have h2 : j * b + b ≤ tests.length + b - 1 := by
      rw [← Nat.succ_mul]
      exact hdiv
    have h3 : b ≤ tests.length - i * b := by
      have hgen : ∀ X Y : Nat, X + b ≤ Y → Y + b ≤ tests.length + b - 1 →
          b ≤ tests.length - X := by
        intro X Y hXY hYn
        omega
      exact hgen (i * b) (j * b) h1 h2
    rw [List.length_take, List.length_drop]
    exact min_eq_left h3

/-- C5: for every test collection and every positive batch size `b`, the
splitter succeeds and returns batches whose concatenation is exactly the
input (contiguous, no gaps, no overlap), whose count is
`ceil(length / b)` (written `(length + b - 1) / b` in natural-number
division), and in which every batch except possibly the last has exactly
`b` elements. -/
theorem c5_splitter (α : Type) (tests : List α) (b : Int) (hb : 0 < b) :
    ∃ bs, split_into_batches tests b = some bs ∧
      bs.flatten = tests ∧
      bs.length = (tests.length + b.toNat - 1) / b.toNat ∧
      ∀ c ∈ bs.dropLast, c.length = b.toNat := by
  have hb1 : 1 ≤ b.toNat := by omega
  refine ⟨_, ?_, splitChunks_join b.toNat hb1 tests.length tests le_rfl,
    by simp, splitChunks_sizes b.toNat hb1 tests⟩
  rw [split_into_batches, if_neg (by omega), if_neg (by omega)]

/-- C5, witnessed on a five-element collection with batch size 2:
three batches, the first two of size 2. -/
theorem c5_splitter_witness :
    (0 : Int) < 2 ∧
    ∃ bs, split_into_batches ([1, 2, 3, 4, 5] : List Nat) 2 = some bs ∧
      bs.flatten = [1, 2, 3, 4, 5] ∧
      bs.length = (([1, 2, 3, 4, 5] : List Nat).length + (2 : Int).toNat - 1)
        / (2 : Int).toNat ∧
      ∀ c ∈ bs.dropLast, c.length = (2 : Int).toNat :=
  ⟨by decide, c5_splitter Nat [1, 2, 3, 4, 5] 2 (by decide)⟩

end BatchRunner

namespace MergeBatches

theorem mergeFold_results (fs : List (Artifact R)) (a : Artifact R) :
    (fs.foldl mergeStep a).results
      = a.results ++ (fs.map Artifact.results).flatten := by
  induction fs generalizing a with
  | nil => simp
  | cons f fs ih =>
    simp only [List.foldl_cons, List.map_cons, List.flatten_cons, ih,
      mergeStep, List.append_assoc]

theorem mergeFold_additive (g : Artifact R → Nat)
    (hg : ∀ a b, g (mergeStep a b) = g a + g b)
    (fs : List (Artifact R)) (a : Artifact R) :
    g (fs.foldl mergeStep a) = g a + (fs.map g).sum := by
  induction fs generalizing a with
  | nil => simp
  | cons f fs ih =>
    simp only [List.foldl_cons, List.map_cons, List.sum_cons, ih, hg,
      Nat.add_assoc]

/-- C8: for every non-empty ordered list of artifacts, the merger succeeds
and its output's record sequence is the concatenation of all the inputs'
record sequences in input order, its successes/failures/errors counters
are the componentwise sums over all inputs, and each token-usage
sub-counter (prompt, completion, cached, total; an absent key reads as 0)
is the componentwise sum over all inputs; in particular merging the
scenario artifacts with stats `{2, 0, 0}` and `{1, 1, 0}` and two records
each yields stats `{3, 1, 0}` and four records. -/
theorem c8_merger (R : Type) (base : Artifact R) (rest : List (Artifact R)) :
    (∃ m, merge_results (base :: rest) = some m ∧
      m.results = ((base :: rest).map Artifact.results).flatten ∧
      m.stats.successes
        = ((base :: rest).map (fun a => a.stats.successes)).sum ∧
      m.stats.failures
        = ((base :: rest).map (fun a => a.stats.failures)).sum ∧
      m.stats.errors = ((base :: rest).map (fun a => a.stats.errors)).sum ∧
      m.stats.tokenUsage.prompt.getD 0
        = ((base :: rest).map (fun a => a.stats.tokenUsage.prompt.getD 0)).sum ∧
      m.stats.tokenUsage.completion.getD 0
        = ((base :: rest).map
            (fun a => a.stats.tokenUsage.completion.getD 0)).sum ∧
      m.stats.tokenUsage.cached.getD 0
        = ((base :: rest).map (fun a => a.stats.tokenUsage.cached.getD 0)).sum ∧
      m.stats.tokenUsage.total.getD 0
        = ((base :: rest).map (fun a => a.stats.tokenUsage.total.getD 0)).sum) ∧
    (merge_results [scenarioBatch1, scenarioBatch2]).map
        (fun m => (m.stats.successes, m.stats.failures, m.stats.errors,
          m.results.length))
      = some (3, 1, 0, 4) := by
  refine ⟨⟨rest.foldl mergeStep base, rfl, ?_, ?_, ?_, ?_, ?_, ?_, ?_, ?_⟩,
    by decide⟩
  · simpa using mergeFold_results rest base
  · simpa using mergeFold_additive (fun a => a.stats.successes)
      (fun a b => rfl) rest base
  · simpa using mergeFold_additive (fun a => a.stats.failures)
      (fun a b => rfl) rest base
  · simpa using mergeFold_additive (fun a => a.stats.errors)
      (fun a b => rfl) rest base
  · refine (mergeFold_additive (fun a => a.stats.tokenUsage.prompt.getD 0)
      ?_ rest base).trans (by simp)
    intro a b
    simp only [mergeStep, addTU]
    cases b.stats.tokenUsage.prompt <;> simp
  · refine (mergeFold_additive (fun a => a.stats.tokenUsage.completion.getD 0)
      ?_ rest base).trans (by simp)
    intro a b
    simp only [mergeStep, addTU]
    cases b.stats.tokenUsage.completion <;> simp
  · refine (mergeFold_additive (fun a => a.stats.tokenUsage.cached.getD 0)
      ?_ rest base).trans (by simp)
    intro a b
    simp only [mergeStep, addTU]
    cases b.stats.tokenUsage.cached <;> simp
  · refine (mergeFold_additive (fun a => a.stats.tokenUsage.total.getD 0)
      ?_ rest base).trans (by simp)
    intro a b
    simp only [mergeStep, addTU]
    cases b.stats.tokenUsage.total <;> simp

end MergeBatches
